import Mathlib

/-!
Verification development for the aircrew coordination core.

The development shallowly embeds the two implementations of the
message-consume path and the coordination server tool handlers:

- namespace Mvp models the aircrew-mvp message store
  (aircrew-mvp/mcp-server/src/database.ts and the Prisma variant of
  DatabaseService.getMessages): a messages table with a read flag,
  where getMessages selects the unread rows addressed to a role,
  ordered by creation time, and then separately marks them read.

- namespace Coord models the coordination-server tool handlers
  (coordination-server/src/index.ts) over the relational schema of
  prisma/migrations/20250905065133_init/migration.sql, together with
  the in-memory connection registry and the WebSocket close handler.

Relational rows are lists of structures; SQLite TEXT ordering is
modelled by byte-wise comparison of the character lists, and the
Prisma orderBy clauses by insertion sort with the corresponding
relation.

Definitions come first, theorems after them.
-/

namespace Aircrew

/-! Byte-wise comparison of character lists, the BINARY collation
SQLite applies when ordering a TEXT column. -/

def charListLt : List Char → List Char → Bool
  | [], [] => false
  | [], _ :: _ => true
  | _ :: _, [] => false
  | c :: cs, d :: ds =>
    if c.toNat < d.toNat then true
    else if d.toNat < c.toNat then false
    else charListLt cs ds

def strLt (a b : String) : Bool :=
  charListLt a.data b.data

namespace Mvp

/-- Row of the messages table created by Database.createTables: id,
from_agent, to_agent, message_type, content, task_id, a read flag
(INTEGER DEFAULT 0) and a created_at timestamp. -/
structure Message where
  id : Nat
  fromAgent : String
  toAgent : String
  messageType : String
  content : String
  taskId : Option Nat
  read : Bool
  createdAt : Nat
deriving Repr, DecidableEq

/-- Selection predicate of the consume query: WHERE to_agent = role AND
read = 0 (equivalently the Prisma where clause toAgent = agentRole,
read = false). -/
def unreadFor (role : String) (m : Message) : Bool :=
  m.toAgent == role && !m.read

/-- Ordering of the consume query: ORDER BY created_at ASC. -/
def createdLe (a b : Message) : Prop :=
  a.createdAt ≤ b.createdAt

instance : DecidableRel createdLe := fun a b =>
  inferInstanceAs (Decidable (a.createdAt ≤ b.createdAt))

/-- SELECT step of Database.getMessages: the unread rows addressed to
the role, ordered by creation time ascending. -/
def selectUnread (role : String) (db : List Message) : List Message :=
  List.insertionSort createdLe (db.filter (unreadFor role))

/-- UPDATE step of Database.getMessages: UPDATE messages SET read = 1
WHERE id IN ids (the Prisma variant is updateMany over the same id
list). -/
def markReadIn (ids : List Nat) (db : List Message) : List Message :=
  db.map (fun m => if ids.contains m.id then { m with read := true } else m)

/-- Database.getMessages agentRole markAsRead: runs the SELECT, then,
when markAsRead is set and the selection is nonempty, separately runs
the UPDATE over the selected ids; it returns the selected rows and the
resulting table. -/
def getMessages (role : String) (markAsRead : Bool) (db : List Message) :
    List Message × List Message :=
  let msgs := selectUnread role db
  (msgs,
   if markAsRead && !msgs.isEmpty then markReadIn (msgs.map Message.id) db else db)

/-- Effect of a completed consume call on a single row: rows satisfying
the selection predicate get their read flag set, all other rows are
untouched. -/
def consumeReadMark (role : String) (m : Message) : Message :=
  if unreadFor role m then { m with read := true } else m

/-- Interleaved execution of two concurrent getMessages calls for the
same role with markAsRead set, under the schedule select-1, select-2,
update-1, update-2. Each of the four lines is one awaited database
operation of Database.getMessages; between the await points the other
call may run, so this schedule is realizable. Returns the two result
sets and the final table. -/
def consumeInterleaved (role : String) (db : List Message) :
    List Message × List Message × List Message :=
  let sel1 := selectUnread role db
  let sel2 := selectUnread role db
  let db1 := if !sel1.isEmpty then markReadIn (sel1.map Message.id) db else db
  let db2 := if !sel2.isEmpty then markReadIn (sel2.map Message.id) db1 else db1
  (sel1, sel2, db2)

/-- Modelled from the spec: the selection the specification prescribes
for consume, namely every not-yet-read message whose toAgent is the
role or the sentinel broadcast. The code under src/ never implements
the broadcast part of this clause; this definition follows the words
of the spec and is compared against getMessages. -/
def specConsumeTargets (role : String) (m : Message) : Prop :=
  (m.toAgent = role ∨ m.toAgent = "broadcast") ∧ m.read = false

/-- Claim-shaped statement that a consume call for a role returns every
message the spec says it selects. -/
def claimConsumeComplete (role : String) (db : List Message) : Prop :=
  ∀ m ∈ db, specConsumeTargets role m → m ∈ (getMessages role true db).1

instance (role : String) (m : Message) : Decidable (specConsumeTargets role m) :=
  inferInstanceAs (Decidable ((m.toAgent = role ∨ m.toAgent = "broadcast") ∧ m.read = false))

instance (role : String) (db : List Message) : Decidable (claimConsumeComplete role db) :=
  inferInstanceAs (Decidable (∀ m ∈ db, specConsumeTargets role m → m ∈ (getMessages role true db).1))

/-- Concrete unread message addressed to the DEV role. -/
def raceMsg : Message :=
  { id := 1, fromAgent := "PM", toAgent := "DEV", messageType := "TASK_ASSIGNMENT",
    content := "build the form", taskId := none, read := false, createdAt := 0 }

/-- Concrete unread message addressed to the broadcast sentinel. -/
def bcastMsg : Message :=
  { id := 2, fromAgent := "PM", toAgent := "broadcast", messageType := "FEEDBACK",
    content := "standup in five", taskId := none, read := false, createdAt := 1 }

/-- Concrete message table used by the consume witnesses. -/
def demoDb : List Message :=
  [ { id := 1, fromAgent := "PM", toAgent := "DEV", messageType := "TASK_ASSIGNMENT",
      content := "build the form", taskId := none, read := false, createdAt := 3 },
    { id := 2, fromAgent := "DEV", toAgent := "PM", messageType := "QUESTION",
      content := "which form", taskId := none, read := false, createdAt := 1 },
    { id := 3, fromAgent := "PM", toAgent := "DEV", messageType := "FEEDBACK",
      content := "see the ticket", taskId := none, read := true, createdAt := 2 },
    { id := 4, fromAgent := "PM", toAgent := "DEV", messageType := "PING",
      content := "ping", taskId := none, read := false, createdAt := 0 } ]

end Mvp

namespace Coord

/-- Row of the projects table: status defaults to PLANNING and priority
to MEDIUM in the migration. -/
structure Project where
  id : Nat
  name : String
  description : String
  status : String
  priority : String
deriving Repr, DecidableEq

/-- Row of the tasks table: status defaults to TODO, priority to
MEDIUM; assignedTo is nullable; startedAt and completedAt are set by
update_task_status transitions. -/
structure Task where
  id : Nat
  projectId : Nat
  title : String
  description : String
  status : String
  priority : String
  assignedTo : Option String
  estimatedHours : Option Nat
  actualHours : Option Nat
  createdAt : Nat
  startedAt : Option Nat
  completedAt : Option Nat
deriving Repr, DecidableEq

/-- Row of the agent_messages table: status defaults to SENT. -/
structure AgentMessage where
  id : Nat
  fromAgent : String
  toAgent : String
  messageType : String
  content : String
  projectId : Option Nat
  taskId : Option Nat
  status : String
  createdAt : Nat
deriving Repr, DecidableEq

/-- Row of the agents table: the pair of name and role carries the
unique index agents_name_role_key. -/
structure Agent where
  id : Nat
  name : String
  role : String
  status : String
  endpoint : Option String
  capabilities : Option String
  lastPing : Option Nat
deriving Repr, DecidableEq

/-- Relational store of the coordination server. nextId stands for the
id generator of the backing store and now for the current clock
reading used for timestamps. -/
structure Store where
  projects : List Project
  tasks : List Task
  agentMessages : List AgentMessage
  agents : List Agent
  nextId : Nat
  now : Nat
deriving Repr, DecidableEq

/-- Tool response envelope: a text content part plus the isError
marker the catch-all handler sets on failure. -/
structure ToolResult where
  text : String
  isError : Bool
deriving Repr, DecidableEq

def toolOk (t : String) : ToolResult := { text := t, isError := false }

def toolError (t : String) : ToolResult := { text := t, isError := true }

/-- Live WebSocket connection: its identity and whether readyState is
OPEN. -/
structure WSConn where
  connId : Nat
  isOpen : Bool
deriving Repr, DecidableEq

/-- Per-connection registry entry stored in the agentStatus map: the
role claimed at registration and the last heartbeat time. -/
structure ConnStatus where
  role : String
  lastPing : Nat
deriving Repr, DecidableEq

/-- In-memory connection registry of index.ts: the agentConnections
map from agent id to WebSocket and the agentStatus map from agent id
to role and last ping. Both maps have unique keys. -/
structure Registry where
  agentConnections : List (String × WSConn)
  agentStatus : List (String × ConnStatus)
deriving Repr, DecidableEq

/-- Lookup in a JavaScript Map: the binding for the key, if present. -/
def lookupConn (aid : String) (conns : List (String × WSConn)) : Option WSConn :=
  match conns.find? (fun p => p.1 == aid) with
  | some p => some p.2
  | none => none

/-- Helper sendMessageToAgent of index.ts: walk agentStatus, and for
every entry with the target role push one frame to its connection when
that connection exists and is OPEN. The result lists the connection
ids reached; no store row is touched. -/
def sendMessageToAgent (targetRole : String) (reg : Registry) : List Nat :=
  reg.agentStatus.filterMap (fun p =>
    if p.2.role == targetRole then
      match lookupConn p.1 reg.agentConnections with
      | some c => if c.isOpen then some c.connId else none
      | none => none
    else none)

/-- Helper broadcastToAgents of index.ts: push one frame to every
OPEN connection currently in agentConnections. -/
def broadcastToAgents (reg : Registry) : List Nat :=
  reg.agentConnections.filterMap (fun p => if p.2.isOpen then some p.2.connId else none)

/-- Close handler of index.ts (ws.on close): find the map entry whose
connection is the closing socket, delete that agent id from both maps
and stop; nothing else happens, in particular no store row is
written. -/
def wsClose (ws : WSConn) (reg : Registry) : Registry :=
  match reg.agentConnections.find? (fun p => p.2 == ws) with
  | some p =>
      { agentConnections := reg.agentConnections.filter (fun q => !(q.1 == p.1)),
        agentStatus := reg.agentStatus.filter (fun q => !(q.1 == p.1)) }
  | none => reg

/-- Connection-close handling as a whole: the registry shrinks through
wsClose and the store is returned as it was, because the close handler
of index.ts contains no database call. -/
def wsCloseHandler (ws : WSConn) (reg : Registry) (s : Store) : Registry × Store :=
  (wsClose ws reg, s)

/-- Existence test backing the foreign key from tasks to projects. -/
def projectExists (pid : Nat) (s : Store) : Bool :=
  s.projects.any (fun p => p.id == pid)

/-- Existence test backing the foreign key from agent_messages to
tasks. -/
def taskExists (tid : Nat) (s : Store) : Bool :=
  s.tasks.any (fun t => t.id == tid)

/-- Tool create_project: insert a Project row; name is taken as given,
status comes from the migration default PLANNING, priority defaults to
MEDIUM. The handler performs no validation of the name. -/
def create_project (name description : String) (priority : Option String) (s : Store) :
    ToolResult × Store :=
  let p : Project :=
    { id := s.nextId, name := name, description := description,
      status := "PLANNING", priority := priority.getD "MEDIUM" }
  (toolOk ("Project created with ID " ++ toString p.id),
   { s with projects := s.projects ++ [p], nextId := s.nextId + 1 })

/-- Tool create_task: insert a Task row (status TODO by the migration
default); when the projectId does not resolve the foreign key makes
the insert fail and the catch-all returns the error envelope. When
assignedTo is given, sendMessageToAgent pushes a task_assigned frame
to connected agents of that role; no agent_messages row is written.
The third component lists the connection ids reached by the push. -/
def create_task (projectId : Nat) (title description : String)
    (assignedTo : Option String) (priority : Option String) (estimatedHours : Option Nat)
    (s : Store) (reg : Registry) : ToolResult × Store × List Nat :=
  if projectExists projectId s then
    let t : Task :=
      { id := s.nextId, projectId := projectId, title := title,
        description := description, status := "TODO",
        priority := priority.getD "MEDIUM", assignedTo := assignedTo,
        estimatedHours := estimatedHours, actualHours := none,
        createdAt := s.now, startedAt := none, completedAt := none }
    let s1 := { s with tasks := s.tasks ++ [t], nextId := s.nextId + 1 }
    let pushes := match assignedTo with
      | some role => sendMessageToAgent role reg
      | none => []
    (toolOk ("Task created with ID " ++ toString t.id), s1, pushes)
  else
    (toolError "Foreign key constraint failed on projectId", s, [])

/-- Tool update_task_status: update the Task row matched by id, setting
startedAt on an IN_PROGRESS transition and completedAt on a DONE
transition, then log one task_status_update row in agent_messages.
When no row has the id, the Prisma update throws record-not-found and
the catch-all returns the error envelope with the store untouched. -/
def update_task_status (taskId : Nat) (status : String) (actualHours : Option Nat)
    (notes : String) (s : Store) : ToolResult × Store :=
  match s.tasks.find? (fun t => t.id == taskId) with
  | none => (toolError "Record to update not found", s)
  | some t =>
      let t1 : Task :=
        { t with
          status := status,
          actualHours := match actualHours with
            | some h => some h
            | none => t.actualHours,
          startedAt := if status == "IN_PROGRESS" then some s.now else t.startedAt,
          completedAt := if status == "DONE" then some s.now else t.completedAt }
      let s1 := { s with tasks := s.tasks.map (fun (u : Task) => if u.id == taskId then t1 else u) }
      let msg : AgentMessage :=
        { id := s1.nextId, fromAgent := "SYSTEM",
          toAgent := t1.assignedTo.getD "UNASSIGNED",
          messageType := "task_status_update", content := notes,
          projectId := some t1.projectId, taskId := some t1.id,
          status := "SENT", createdAt := s.now }
      (toolOk ("Task status updated to " ++ status),
       { s1 with agentMessages := s1.agentMessages ++ [msg], nextId := s1.nextId + 1 })

/-- Tool send_agent_message: persist one agent_messages row with the
given toAgent (any string; the handler never checks it against the
known roles) and status SENT, then push it, to every connection for a
broadcast target or to the connections of the target role otherwise.
The optional projectId and taskId references are checked only by the
foreign keys. The third component lists the connection ids reached. -/
def send_agent_message (toAgent messageType content : String)
    (projectId taskId : Option Nat) (s : Store) (reg : Registry) :
    ToolResult × Store × List Nat :=
  let fkViolation :=
    (match projectId with
     | some pid => !projectExists pid s
     | none => false) ||
    (match taskId with
     | some tid => !taskExists tid s
     | none => false)
  if fkViolation then
    (toolError "Foreign key constraint failed", s, [])
  else
    let msg : AgentMessage :=
      { id := s.nextId, fromAgent := "SYSTEM", toAgent := toAgent,
        messageType := messageType, content := content,
        projectId := projectId, taskId := taskId,
        status := "SENT", createdAt := s.now }
    let s1 := { s with agentMessages := s.agentMessages ++ [msg], nextId := s.nextId + 1 }
    let pushes :=
      if toAgent == "broadcast" then broadcastToAgents reg
      else sendMessageToAgent toAgent reg
    (toolOk ("Message sent to " ++ toAgent), s1, pushes)

/-- Where clause of get_agent_tasks: assignedTo equals the role, and
the status matches the filter when one is supplied. -/
def taskMatches (agentRole : String) (statusFilter : Option String) (t : Task) : Bool :=
  t.assignedTo == some agentRole &&
    (match statusFilter with
     | some st => t.status == st
     | none => true)

/-- Ordering of get_agent_tasks as the backing store executes it:
orderBy priority desc compares the TEXT column under the byte-wise
collation, then createdAt asc breaks ties. -/
def taskOrder (a b : Task) : Prop :=
  strLt b.priority a.priority = true ∨
    (a.priority = b.priority ∧ a.createdAt ≤ b.createdAt)

instance taskOrderDec : DecidableRel taskOrder := fun a b =>
  inferInstanceAs
    (Decidable (strLt b.priority a.priority = true ∨
      (a.priority = b.priority ∧ a.createdAt ≤ b.createdAt)))

/-- Tool get_agent_tasks: the Task rows matching the where clause,
ordered by priority desc (TEXT collation) then createdAt asc. -/
def get_agent_tasks (agentRole : String) (statusFilter : Option String) (s : Store) :
    List Task :=
  List.insertionSort taskOrder (s.tasks.filter (taskMatches agentRole statusFilter))

/-- Modelled from the spec: the semantic rank of a priority label,
URGENT above HIGH above MEDIUM above LOW, as the claim about
get_agent_tasks reads the ordering. The code orders the TEXT column
byte-wise instead; this definition follows the words of the claim and
is compared against taskOrder. -/
def priorityRank (p : String) : Nat :=
  if p == "URGENT" then 3
  else if p == "HIGH" then 2
  else if p == "MEDIUM" then 1
  else 0

/-- Claim-shaped ordering for get_agent_tasks: semantic priority rank
descending, then creation time ascending. -/
def claimTaskOrder (a b : Task) : Prop :=
  priorityRank b.priority < priorityRank a.priority ∨
    (priorityRank a.priority = priorityRank b.priority ∧ a.createdAt ≤ b.createdAt)

instance claimTaskOrderDec : DecidableRel claimTaskOrder := fun a b =>
  inferInstanceAs
    (Decidable (priorityRank b.priority < priorityRank a.priority ∨
      (priorityRank a.priority = priorityRank b.priority ∧ a.createdAt ≤ b.createdAt)))

/-- Key predicate of the unique index agents_name_role_key. -/
def agentKeyMatches (name role : String) (a : Agent) : Bool :=
  a.name == name && a.role == role

/-- Agent rows carrying a given name and role. -/
def agentRowsFor (name role : String) (s : Store) : List Agent :=
  s.agents.filter (agentKeyMatches name role)

/-- Tool register_agent: prisma.agent.upsert keyed by the unique index
on name and role. An existing row is updated to ONLINE with fresh
lastPing, endpoint and capabilities; otherwise a new ONLINE row is
created. Returns the row the upsert resolved to. -/
def register_agent (name role : String) (endpoint : Option String)
    (capabilities : Option String) (s : Store) : Agent × Store :=
  match s.agents.find? (agentKeyMatches name role) with
  | some a =>
      let a1 : Agent :=
        { a with
          status := "ONLINE", endpoint := endpoint,
          capabilities := capabilities, lastPing := some s.now }
      let updated := s.agents.map (fun (b : Agent) => if agentKeyMatches name role b then a1 else b)
      (a1, { s with agents := updated })
  | none =>
      let a : Agent :=
        { id := s.nextId, name := name, role := role, status := "ONLINE",
          endpoint := endpoint, capabilities := capabilities,
          lastPing := some s.now }
      (a, { s with agents := s.agents ++ [a], nextId := s.nextId + 1 })

/-- Persisted TASK_ASSIGNMENT messages addressed to a role, the rows
the create_task claim expects to appear. -/
def persistedAssignments (role : String) (s : Store) : List AgentMessage :=
  s.agentMessages.filter (fun m => m.toAgent == role && m.messageType == "TASK_ASSIGNMENT")

/-- Concrete project row used by the scenario stores. -/
def demoProject : Project :=
  { id := 1, name := "Landing Page", description := "landing page effort",
    status := "PLANNING", priority := "MEDIUM" }

/-- Concrete store holding one project and nothing else. -/
def demoStore : Store :=
  { projects := [demoProject], tasks := [], agentMessages := [], agents := [],
    nextId := 2, now := 5 }

/-- Concrete registry with one connected DEV agent. -/
def demoRegistry : Registry :=
  { agentConnections := [("agent-dev-1", { connId := 7, isOpen := true })],
    agentStatus := [("agent-dev-1", { role := "DEV", lastPing := 4 })] }

/-- Concrete HIGH-priority task created before the MEDIUM one. -/
def taskHigh : Task :=
  { id := 10, projectId := 1, title := "fix login", description := "",
    status := "TODO", priority := "HIGH", assignedTo := some "DEV",
    estimatedHours := none, actualHours := none, createdAt := 0,
    startedAt := none, completedAt := none }

/-- Concrete MEDIUM-priority task created after the HIGH one. -/
def taskMedium : Task :=
  { id := 11, projectId := 1, title := "update docs", description := "",
    status := "TODO", priority := "MEDIUM", assignedTo := some "DEV",
    estimatedHours := none, actualHours := none, createdAt := 1,
    startedAt := none, completedAt := none }

/-- Concrete store holding the two prioritized tasks. -/
def orderStore : Store :=
  { projects := [demoProject], tasks := [taskHigh, taskMedium],
    agentMessages := [], agents := [], nextId := 12, now := 6 }

/-- Concrete ONLINE agent row used by the close-handler scenario. -/
def onlineAgent : Agent :=
  { id := 3, name := "alpha", role := "DEV", status := "ONLINE",
    endpoint := none, capabilities := none, lastPing := some 4 }

/-- Concrete store whose only agent row is ONLINE. -/
def closeStore : Store :=
  { projects := [], tasks := [], agentMessages := [], agents := [onlineAgent],
    nextId := 4, now := 9 }

/-- Concrete socket closed in the close-handler scenario. -/
def closingConn : WSConn := { connId := 7, isOpen := true }

end Coord

/-! Theorems. General facts about the byte-wise string order come
first, then the per-claim results. -/

theorem char_eq_of_toNat_eq {c d : Char} (h : c.toNat = d.toNat) : c = d :=
  Char.eq_of_val_eq (UInt32.toNat.inj h)

theorem charListLt_cons_iff (c d : Char) (cs ds : List Char) :
    charListLt (c :: cs) (d :: ds) = true ↔
      c.toNat < d.toNat ∨ (c.toNat = d.toNat ∧ charListLt cs ds = true) := by
  simp only [charListLt]
  by_cases h1 : c.toNat < d.toNat
  · simp [h1]
  · by_cases h2 : d.toNat < c.toNat
    · simp [h1, h2]
      omega
    · have h3 : c.toNat = d.toNat := by omega
      simp [h1, h2, h3]

theorem charListLt_trans :
    ∀ {a b c : List Char}, charListLt a b = true → charListLt b c = true →
      charListLt a c = true := by
  intro a
  induction a with
  | nil =>
    intro b c hab hbc
    cases b with
    | nil => simp [charListLt] at hab
    | cons y ys =>
      cases c with
      | nil => simp [charListLt] at hbc
      | cons z zs => simp [charListLt]
  | cons x xs ih =>
    intro b c hab hbc
    cases b with
    | nil => simp [charListLt] at hab
    | cons y ys =>
      cases c with
      | nil => simp [charListLt] at hbc
      | cons z zs =>
        rw [charListLt_cons_iff] at hab hbc ⊢
        rcases hab with h1 | ⟨he1, hr1⟩
        · rcases hbc with h2 | ⟨he2, hr2⟩
          · exact Or.inl (by omega)
          · exact Or.inl (by omega)
        · rcases hbc with h2 | ⟨he2, hr2⟩
          · exact Or.inl (by omega)
          · exact Or.inr ⟨by omega, ih hr1 hr2⟩

theorem charListLt_total :
    ∀ (a b : List Char), charListLt a b = true ∨ a = b ∨ charListLt b a = true := by
  intro a
  induction a with
  | nil =>
    intro b
    cases b with
    | nil => simp
    | cons y ys => simp [charListLt]
  | cons x xs ih =>
    intro b
    cases b with
    | nil => simp [charListLt]
    | cons y ys =>
      by_cases hxy : x.toNat < y.toNat
      · exact Or.inl ((charListLt_cons_iff x y xs ys).mpr (Or.inl hxy))
      · by_cases hyx : y.toNat < x.toNat
        · exact Or.inr (Or.inr ((charListLt_cons_iff y x ys xs).mpr (Or.inl hyx)))
        · have he : x.toNat = y.toNat := by omega
          have hx : x = y := char_eq_of_toNat_eq he
          rcases ih ys with h | h | h
          · exact Or.inl ((charListLt_cons_iff x y xs ys).mpr (Or.inr ⟨he, h⟩))
          · exact Or.inr (Or.inl (by rw [hx, h]))
          · exact Or.inr (Or.inr ((charListLt_cons_iff y x ys xs).mpr (Or.inr ⟨he.symm, h⟩)))

theorem string_eq_of_data_eq {a b : String} (h : a.data = b.data) : a = b := by
  cases a; cases b; simp_all

theorem strLt_trans {a b c : String} (hab : strLt a b = true) (hbc : strLt b c = true) :
    strLt a c = true :=
  charListLt_trans hab hbc

theorem strLt_total (a b : String) :
    strLt a b = true ∨ a = b ∨ strLt b a = true := by
  rcases charListLt_total a.data b.data with h | h | h
  · exact Or.inl h
  · exact Or.inr (Or.inl (string_eq_of_data_eq h))
  · exact Or.inr (Or.inr h)

/-! General list helpers shared by the claim proofs. -/

theorem length_le_one_mem_eq {α : Type} {l : List α} {x : α}
    (hlen : l.length ≤ 1) (hx : x ∈ l) : l = [x] := by
  cases l with
  | nil => cases hx
  | cons a as =>
    cases as with
    | nil =>
      simp only [List.mem_singleton] at hx
      simp [hx]
    | cons b bs => simp at hlen

theorem filter_eq_singleton_find {α : Type} {p : α → Bool} :
    ∀ {l : List α} {x : α}, l.filter p = [x] → l.find? p = some x := by
  intro l
  induction l with
  | nil =>
    intro x h
    simp at h
  | cons a as ih =>
    intro x h
    by_cases hpa : p a
    · rw [List.filter_cons_of_pos hpa] at h
      have ha : a = x := (List.cons_eq_cons.mp h).1
      subst ha
      simp [List.find?, hpa]
    · rw [List.filter_cons_of_neg hpa] at h
      simp only [List.find?, hpa]
      exact ih h

theorem filter_map_replace_eq {α : Type} (p : α → Bool) (r : α) (hr : p r = true) :
    ∀ (l : List α),
      (l.map (fun b => if p b then r else b)).filter p =
        (l.filter p).map (fun _ => r) := by
  intro l
  induction l with
  | nil => simp
  | cons a as ih =>
    by_cases hpa : p a
    · simp [hpa, hr, ih]
    · simp [hpa, ih]

/-! Claim C1: atomicity of concurrent consume. The implementation is
the select-then-update pair the specification rejects; interleaving
two consume calls for the same role duplicates delivery. -/

/-- Claim C1. Two concurrent consume calls for the same role, run
under the realizable schedule select-select-update-update, always
return the same set, so with one unread DEV message both callers
receive it: the returned sets are not pairwise disjoint, refuting the
no-duplication property. -/
theorem consume_race_duplicates :
    (∀ (role : String) (db : List Mvp.Message),
      (Mvp.consumeInterleaved role db).1 = (Mvp.consumeInterleaved role db).2.1) ∧
    (Mvp.consumeInterleaved "DEV" [Mvp.raceMsg]).1 = [Mvp.raceMsg] ∧
    (Mvp.consumeInterleaved "DEV" [Mvp.raceMsg]).2.1 = [Mvp.raceMsg] := by
  refine ⟨fun role db => rfl, ?_, ?_⟩ <;> decide

/-! Claim C2: what a sequential consume call selects, marks and
returns. -/

/-- Claim C2 counterexample. A not-yet-read message addressed to the
broadcast sentinel is not returned by a consume call for the PM role:
the selection of getMessages matches the toAgent column against the
role only and has no broadcast clause, against the selection the claim
prescribes. -/
theorem consume_broadcast_not_selected_cex :
    ¬ Mvp.claimConsumeComplete "PM" [Mvp.bcastMsg] := by decide

/-- Claim C2 (amended). Under distinct message ids, a consume call for
a role returns a permutation of exactly the unread rows whose toAgent
equals that role (broadcast rows are not selected), the resulting
table is the original one with precisely those rows marked read and
everything else untouched, and an immediately following consume call
for the same role returns the empty set. -/
theorem getMessages_consume_spec (role : String) (db : List Mvp.Message)
    (h : (db.map Mvp.Message.id).Nodup) :
    ((Mvp.getMessages role true db).1.Perm (db.filter (Mvp.unreadFor role))) ∧
    ((Mvp.getMessages role true db).2 = db.map (Mvp.consumeReadMark role)) ∧
    ((Mvp.getMessages role true (Mvp.getMessages role true db).2).1 = []) := by
  have hperm : (Mvp.selectUnread role db).Perm (db.filter (Mvp.unreadFor role)) :=
    List.perm_insertionSort _ _
  have hmem_sel : ∀ m, m ∈ Mvp.selectUnread role db ↔ m ∈ db.filter (Mvp.unreadFor role) :=
    fun m => hperm.mem_iff
  have hkey : ∀ m ∈ db,
      (((Mvp.selectUnread role db).map Mvp.Message.id).contains m.id = true ↔
        Mvp.unreadFor role m = true) := by
    intro m hm
    constructor
    · intro hc
      have hmemid : m.id ∈ (Mvp.selectUnread role db).map Mvp.Message.id := by
        simpa using hc
      rcases List.mem_map.mp hmemid with ⟨x, hx, hxid⟩
      have hxf : x ∈ db.filter (Mvp.unreadFor role) := (hmem_sel x).mp hx
      have hxdb : x ∈ db := (List.mem_filter.mp hxf).1
      have hxp : Mvp.unreadFor role x = true := (List.mem_filter.mp hxf).2
      have hxm : x = m := List.inj_on_of_nodup_map h hxdb hm hxid
      rw [← hxm]
      exact hxp
    · intro hp
      have hmf : m ∈ db.filter (Mvp.unreadFor role) := List.mem_filter.mpr ⟨hm, hp⟩
      have hms : m ∈ Mvp.selectUnread role db := (hmem_sel m).mpr hmf
      have hmid : m.id ∈ (Mvp.selectUnread role db).map Mvp.Message.id :=
        List.mem_map_of_mem _ hms
      simpa using hmid
  have hsnd : (Mvp.getMessages role true db).2 = db.map (Mvp.consumeReadMark role) := by
    show (if true && !(Mvp.selectUnread role db).isEmpty
          then Mvp.markReadIn ((Mvp.selectUnread role db).map Mvp.Message.id) db
          else db) = db.map (Mvp.consumeReadMark role)
    cases hE : (Mvp.selectUnread role db).isEmpty with
    | true =>
      have hnil : Mvp.selectUnread role db = [] := by
        cases hsel : Mvp.selectUnread role db with
        | nil => rfl
        | cons a as =>
          rw [hsel] at hE
          simp at hE
      have hfil : db.filter (Mvp.unreadFor role) = [] := by
        have h2 := hperm.symm
        rw [hnil] at h2
        exact List.perm_nil.mp h2
      have hall : ∀ m ∈ db, Mvp.unreadFor role m = false := by
        intro m hm
        cases hmb : Mvp.unreadFor role m with
        | false => rfl
        | true =>
          have hmf : m ∈ db.filter (Mvp.unreadFor role) := List.mem_filter.mpr ⟨hm, hmb⟩
          rw [hfil] at hmf
          cases hmf
      have hid : db.map (Mvp.consumeReadMark role) = db := by
        have hpt0 : ∀ m ∈ db, Mvp.consumeReadMark role m = id m := by
          intro m hm
          simp [Mvp.consumeReadMark, hall m hm]
        rw [List.map_congr_left hpt0, List.map_id]
      simp [hid]
    | false =>
      have hpt : ∀ m ∈ db,
          (if ((Mvp.selectUnread role db).map Mvp.Message.id).contains m.id
           then { m with read := true } else m) = Mvp.consumeReadMark role m := by
        intro m hm
        cases hp : Mvp.unreadFor role m with
        | true =>
          have hc : ((Mvp.selectUnread role db).map Mvp.Message.id).contains m.id = true :=
            (hkey m hm).mpr hp
          rw [hc]
          simp [Mvp.consumeReadMark, hp]
        | false =>
          have hc : ((Mvp.selectUnread role db).map Mvp.Message.id).contains m.id = false := by
            cases hc2 : ((Mvp.selectUnread role db).map Mvp.Message.id).contains m.id with
            | false => rfl
            | true =>
              have hbad := (hkey m hm).mp hc2
              rw [hp] at hbad
              cases hbad
          rw [hc]
          simp [Mvp.consumeReadMark, hp]
      have hmark : Mvp.markReadIn ((Mvp.selectUnread role db).map Mvp.Message.id) db =
          db.map (Mvp.consumeReadMark role) := by
        rw [Mvp.markReadIn]
        exact List.map_congr_left hpt
      simp [hmark]
  refine ⟨hperm, hsnd, ?_⟩
  have hfst : (Mvp.getMessages role true (Mvp.getMessages role true db).2).1 =
      Mvp.selectUnread role ((Mvp.getMessages role true db).2) := rfl
  rw [hfst, hsnd]
  have hfil2 : (db.map (Mvp.consumeReadMark role)).filter (Mvp.unreadFor role) = [] := by
    rw [List.filter_eq_nil_iff]
    intro m2 hm2
    rcases List.mem_map.mp hm2 with ⟨m, hm, rfl⟩
    cases hp : Mvp.unreadFor role m with
    | true =>
      have hstep : Mvp.consumeReadMark role m = { m with read := true } := by
        simp [Mvp.consumeReadMark, hp]
      rw [hstep]
      simp [Mvp.unreadFor]
    | false =>
      have hstep : Mvp.consumeReadMark role m = m := by
        simp [Mvp.consumeReadMark, hp]
      rw [hstep]
      simp [hp]
  rw [Mvp.selectUnread, hfil2]
  rfl

/-- Claim C2 witness: the amended consume specification evaluated on a
concrete four-row table with distinct ids. -/
theorem getMessages_consume_spec_witness :
    ((Mvp.getMessages "DEV" true Mvp.demoDb).1.Perm
      (Mvp.demoDb.filter (Mvp.unreadFor "DEV"))) ∧
    ((Mvp.getMessages "DEV" true Mvp.demoDb).2 =
      Mvp.demoDb.map (Mvp.consumeReadMark "DEV")) ∧
    ((Mvp.getMessages "DEV" true (Mvp.getMessages "DEV" true Mvp.demoDb).2).1 = []) :=
  getMessages_consume_spec "DEV" Mvp.demoDb (by decide)

/-! Claim C10: a pull with markAsRead set to false mutates nothing. -/

/-- Claim C10. getMessages with markAsRead set to false leaves the
message table unchanged, and an immediately repeated call returns the
same message list. -/
theorem getMessages_peek_pure (role : String) (db : List Mvp.Message) :
    ((Mvp.getMessages role false db).2 = db) ∧
    ((Mvp.getMessages role false (Mvp.getMessages role false db).2).1 =
      (Mvp.getMessages role false db).1) := by
  constructor
  · simp [Mvp.getMessages]
  · simp [Mvp.getMessages]

/-! Claim C8: create_project and the empty name. -/

/-- Claim C8 counterexample. create_project with an empty name does not
fail: the handler validates nothing, returns a success envelope and
inserts a Project row (with status PLANNING), refuting the claimed
structured error and the claimed absence of an insert. -/
theorem create_project_empty_name_cex :
    ((Coord.create_project "" "" none Coord.demoStore).1.isError = false) ∧
    ((Coord.create_project "" "" none Coord.demoStore).2.projects.length =
      Coord.demoStore.projects.length + 1) ∧
    ((Coord.create_project "" "" none Coord.demoStore).2.projects.getLast?.map Coord.Project.status =
      some "PLANNING") := by
  refine ⟨rfl, rfl, ?_⟩
  decide

/-- Claim C8 (amended). create_project performs no name validation: for
every name, the empty string included, the call succeeds and appends
one Project row whose status is PLANNING, leaving tasks and messages
untouched. -/
theorem create_project_spec (name description : String) (priority : Option String)
    (s : Coord.Store) :
    ((Coord.create_project name description priority s).1.isError = false) ∧
    ((Coord.create_project name description priority s).2.projects =
      s.projects ++
        [{ id := s.nextId, name := name, description := description,
           status := "PLANNING", priority := priority.getD "MEDIUM" }]) ∧
    ((Coord.create_project name description priority s).2.tasks = s.tasks) ∧
    ((Coord.create_project name description priority s).2.agentMessages = s.agentMessages) :=
  ⟨rfl, rfl, rfl, rfl⟩

/-! Claim C4: send_agent_message and unknown toAgent targets. -/

/-- Claim C4 counterexample. WIZARD is neither one of the known roles
nor the broadcast sentinel, yet send_agent_message succeeds and
persists one Message row with that toAgent: no ValidationError is
produced and the store is written, refuting the claim. -/
theorem send_agent_message_unknown_role_cex :
    ((Coord.send_agent_message "WIZARD" "QUESTION" "who reviews this" none none
        Coord.demoStore Coord.demoRegistry).1.isError = false) ∧
    ((Coord.send_agent_message "WIZARD" "QUESTION" "who reviews this" none none
        Coord.demoStore Coord.demoRegistry).2.1.agentMessages.length =
      Coord.demoStore.agentMessages.length + 1) ∧
    ((Coord.send_agent_message "WIZARD" "QUESTION" "who reviews this" none none
        Coord.demoStore Coord.demoRegistry).2.1.agentMessages.getLast?.map
          Coord.AgentMessage.toAgent = some "WIZARD") := by
  refine ⟨rfl, rfl, ?_⟩
  decide

/-- Claim C4 (amended). The send_agent_message handler never validates
toAgent: for every toAgent string, unknown role names included, the
call succeeds and appends exactly one Message row with that toAgent
and status SENT, and push delivery is attempted. -/
theorem send_agent_message_spec (toAgent messageType content : String)
    (s : Coord.Store) (reg : Coord.Registry) :
    ((Coord.send_agent_message toAgent messageType content none none s reg).1.isError = false) ∧
    ((Coord.send_agent_message toAgent messageType content none none s reg).2.1.agentMessages =
      s.agentMessages ++
        [{ id := s.nextId, fromAgent := "SYSTEM", toAgent := toAgent,
           messageType := messageType, content := content, projectId := none,
           taskId := none, status := "SENT", createdAt := s.now }]) ∧
    ((Coord.send_agent_message toAgent messageType content none none s reg).2.2 =
      if toAgent == "broadcast" then Coord.broadcastToAgents reg
      else Coord.sendMessageToAgent toAgent reg) :=
  ⟨rfl, rfl, rfl⟩

/-! Claim C3: create_task with an assignee. -/

/-- Claim C3 counterexample. create_task on a resolvable project with
assignedTo DEV succeeds but persists no TASK_ASSIGNMENT Message row at
all: the handler only pushes a WebSocket frame, so the count of
persisted assignment messages stays zero instead of becoming one. -/
theorem create_task_no_persisted_message_cex :
    ((Coord.create_task 1 "Build form" "" (some "DEV") none none
        Coord.demoStore Coord.demoRegistry).1.isError = false) ∧
    ((Coord.create_task 1 "Build form" "" (some "DEV") none none
        Coord.demoStore Coord.demoRegistry).2.1.agentMessages = []) ∧
    ¬ ((Coord.persistedAssignments "DEV"
        (Coord.create_task 1 "Build form" "" (some "DEV") none none
          Coord.demoStore Coord.demoRegistry).2.1).length = 1) := by
  refine ⟨rfl, rfl, ?_⟩
  decide

/-- Claim C3 (amended). For a resolvable projectId and a given
assignedTo role, create_task appends one Task row with status TODO and
that assignee, pushes the task_assigned notification to the connected
agents of the role, and persists no Message row: the agent_messages
table is unchanged. -/
theorem create_task_spec (projectId : Nat) (title description role : String)
    (priority : Option String) (estimatedHours : Option Nat)
    (s : Coord.Store) (reg : Coord.Registry)
    (h : Coord.projectExists projectId s = true) :
    ((Coord.create_task projectId title description (some role) priority estimatedHours s reg).1.isError = false) ∧
    ((Coord.create_task projectId title description (some role) priority estimatedHours s reg).2.1.tasks =
      s.tasks ++
        [{ id := s.nextId, projectId := projectId, title := title,
           description := description, status := "TODO",
           priority := priority.getD "MEDIUM", assignedTo := some role,
           estimatedHours := estimatedHours, actualHours := none,
           createdAt := s.now, startedAt := none, completedAt := none }]) ∧
    ((Coord.create_task projectId title description (some role) priority estimatedHours s reg).2.1.agentMessages =
      s.agentMessages) ∧
    ((Coord.create_task projectId title description (some role) priority estimatedHours s reg).2.2 =
      Coord.sendMessageToAgent role reg) := by
  refine ⟨?_, ?_, ?_, ?_⟩ <;> simp [Coord.create_task, h, Coord.toolOk]

/-- Claim C3 witness: the amended create_task behavior on the concrete
Landing Page store with a connected DEV agent. -/
theorem create_task_spec_witness :
    (Coord.projectExists 1 Coord.demoStore = true) ∧
    (((Coord.create_task 1 "Build form" "contact form" (some "DEV") none none
        Coord.demoStore Coord.demoRegistry).1.isError = false) ∧
    ((Coord.create_task 1 "Build form" "contact form" (some "DEV") none none
        Coord.demoStore Coord.demoRegistry).2.1.tasks =
      Coord.demoStore.tasks ++
        [{ id := Coord.demoStore.nextId, projectId := 1, title := "Build form",
           description := "contact form", status := "TODO",
           priority := (none : Option String).getD "MEDIUM", assignedTo := some "DEV",
           estimatedHours := none, actualHours := none,
           createdAt := Coord.demoStore.now, startedAt := none, completedAt := none }]) ∧
    ((Coord.create_task 1 "Build form" "contact form" (some "DEV") none none
        Coord.demoStore Coord.demoRegistry).2.1.agentMessages =
      Coord.demoStore.agentMessages) ∧
    ((Coord.create_task 1 "Build form" "contact form" (some "DEV") none none
        Coord.demoStore Coord.demoRegistry).2.2 =
      Coord.sendMessageToAgent "DEV" Coord.demoRegistry)) :=
  ⟨by decide,
   create_task_spec 1 "Build form" "contact form" "DEV" none none
     Coord.demoStore Coord.demoRegistry (by decide)⟩

/-! Claim C5: update_task_status on an unresolvable taskId. -/

/-- Claim C5. When no Task row carries the given id, update_task_status
returns the error envelope and leaves the store exactly as it was, so
in particular the task count and the message count are unchanged and
no effect happens at all. -/
theorem update_task_status_notfound (taskId : Nat) (status : String)
    (actualHours : Option Nat) (notes : String) (s : Coord.Store)
    (h : ∀ t ∈ s.tasks, t.id ≠ taskId) :
    ((Coord.update_task_status taskId status actualHours notes s).1.isError = true) ∧
    ((Coord.update_task_status taskId status actualHours notes s).2 = s) ∧
    ((Coord.update_task_status taskId status actualHours notes s).2.tasks.length =
      s.tasks.length) ∧
    ((Coord.update_task_status taskId status actualHours notes s).2.agentMessages.length =
      s.agentMessages.length) := by
  have hf : s.tasks.find? (fun t => t.id == taskId) = none := by
    rw [List.find?_eq_none]
    intro t ht
    simp only [beq_iff_eq]
    exact h t ht
  refine ⟨?_, ?_, ?_, ?_⟩ <;> simp [Coord.update_task_status, hf, Coord.toolError]

/-- Claim C5 witness: updating a task id absent from the concrete
two-task store returns the error envelope and changes nothing. -/
theorem update_task_status_notfound_witness :
    (∀ t ∈ Coord.orderStore.tasks, t.id ≠ 42) ∧
    (((Coord.update_task_status 42 "DONE" none "" Coord.orderStore).1.isError = true) ∧
    ((Coord.update_task_status 42 "DONE" none "" Coord.orderStore).2 = Coord.orderStore) ∧
    ((Coord.update_task_status 42 "DONE" none "" Coord.orderStore).2.tasks.length =
      Coord.orderStore.tasks.length) ∧
    ((Coord.update_task_status 42 "DONE" none "" Coord.orderStore).2.agentMessages.length =
      Coord.orderStore.agentMessages.length)) :=
  ⟨by decide, update_task_status_notfound 42 "DONE" none "" Coord.orderStore (by decide)⟩

/-! Claim C6: register_agent is an idempotent upsert on the unique
name and role key. Two helper lemmas characterize one upsert step on a
store whose key has no row, respectively exactly one row. -/

theorem register_agent_fresh (name role : String) (e c : Option String) (s : Coord.Store)
    (hnone : Coord.agentRowsFor name role s = []) :
    ((Coord.register_agent name role e c s).1.id = s.nextId) ∧
    (Coord.agentRowsFor name role (Coord.register_agent name role e c s).2 =
      [(Coord.register_agent name role e c s).1]) := by
  have hnone2 : s.agents.filter (Coord.agentKeyMatches name role) = [] := hnone
  have hfind : s.agents.find? (Coord.agentKeyMatches name role) = none := by
    rw [List.find?_eq_none]
    intro x hx hpx
    have hxf : x ∈ s.agents.filter (Coord.agentKeyMatches name role) :=
      List.mem_filter.mpr ⟨hx, hpx⟩
    rw [hnone2] at hxf
    cases hxf
  have pnew : Coord.agentKeyMatches name role
      { id := s.nextId, name := name, role := role, status := "ONLINE",
        endpoint := e, capabilities := c, lastPing := some s.now } = true := by
    simp [Coord.agentKeyMatches]
  constructor
  · simp [Coord.register_agent, hfind]
  · simp only [Coord.register_agent, hfind, Coord.agentRowsFor]
    rw [List.filter_append, hnone2]
    simp [pnew]

theorem register_agent_existing (name role : String) (e c : Option String) (s : Coord.Store)
    (a : Coord.Agent) (hone : Coord.agentRowsFor name role s = [a]) :
    ((Coord.register_agent name role e c s).1.id = a.id) ∧
    (Coord.agentRowsFor name role (Coord.register_agent name role e c s).2 =
      [(Coord.register_agent name role e c s).1]) := by
  have hone2 : s.agents.filter (Coord.agentKeyMatches name role) = [a] := hone
  have hfind : s.agents.find? (Coord.agentKeyMatches name role) = some a :=
    filter_eq_singleton_find hone2
  have pa : Coord.agentKeyMatches name role a = true := List.find?_some hfind
  have pa1 : Coord.agentKeyMatches name role
      { a with
        status := "ONLINE", endpoint := e,
        capabilities := c, lastPing := some s.now } = true := by
    simpa [Coord.agentKeyMatches] using pa
  constructor
  · simp [Coord.register_agent, hfind]
  · simp only [Coord.register_agent, hfind, Coord.agentRowsFor]
    rw [filter_map_replace_eq _ _ pa1, hone2]
    simp

/-- Claim C6. Starting from any store in which the unique index allows
at most one row for the key, registering the same name and role twice
yields the same Agent id both times and leaves exactly one Agent row
for that key: the upsert is idempotent. -/
theorem register_agent_idempotent (name role : String) (e1 c1 e2 c2 : Option String)
    (s : Coord.Store) (h : (Coord.agentRowsFor name role s).length ≤ 1) :
    ((Coord.register_agent name role e1 c1 s).1.id =
      (Coord.register_agent name role e2 c2
        (Coord.register_agent name role e1 c1 s).2).1.id) ∧
    ((Coord.agentRowsFor name role
      (Coord.register_agent name role e2 c2
        (Coord.register_agent name role e1 c1 s).2).2).length = 1) := by
  have hcases : Coord.agentRowsFor name role s = [] ∨
      ∃ a, Coord.agentRowsFor name role s = [a] := by
    cases hl : Coord.agentRowsFor name role s with
    | nil => exact Or.inl rfl
    | cons a as =>
      cases as with
      | nil => exact Or.inr ⟨a, rfl⟩
      | cons b bs =>
        rw [hl] at h
        simp at h
  rcases hcases with h0 | ⟨a, h1⟩
  · obtain ⟨hid1, hrows1⟩ := register_agent_fresh name role e1 c1 s h0
    obtain ⟨hid2, hrows2⟩ :=
      register_agent_existing name role e2 c2
        (Coord.register_agent name role e1 c1 s).2
        (Coord.register_agent name role e1 c1 s).1 hrows1
    exact ⟨hid2.symm, by rw [hrows2]; rfl⟩
  · obtain ⟨hid1, hrows1⟩ := register_agent_existing name role e1 c1 s a h1
    obtain ⟨hid2, hrows2⟩ :=
      register_agent_existing name role e2 c2
        (Coord.register_agent name role e1 c1 s).2
        (Coord.register_agent name role e1 c1 s).1 hrows1
    exact ⟨hid2.symm, by rw [hrows2]; rfl⟩

/-- Claim C6 witness: double registration of the same name and role on
the concrete one-project store, which has no agent rows. -/
theorem register_agent_idempotent_witness :
    ((Coord.agentRowsFor "alice" "PM" Coord.demoStore).length ≤ 1) ∧
    (((Coord.register_agent "alice" "PM" none none Coord.demoStore).1.id =
      (Coord.register_agent "alice" "PM" none none
        (Coord.register_agent "alice" "PM" none none Coord.demoStore).2).1.id) ∧
    ((Coord.agentRowsFor "alice" "PM"
      (Coord.register_agent "alice" "PM" none none
        (Coord.register_agent "alice" "PM" none none Coord.demoStore).2).2).length = 1)) :=
  ⟨by decide,
   register_agent_idempotent "alice" "PM" none none none none Coord.demoStore (by decide)⟩

/-! Claim C7: the result and ordering of get_agent_tasks. -/

/-- Claim C7 counterexample. With a HIGH task created before a MEDIUM
one, get_agent_tasks returns the MEDIUM task first: orderBy priority
desc sorts the TEXT column byte-wise, where MEDIUM is above HIGH, so
the output violates the claimed order URGENT before HIGH before MEDIUM
before LOW. -/
theorem get_agent_tasks_order_cex :
    (Coord.get_agent_tasks "DEV" none Coord.orderStore =
      [Coord.taskMedium, Coord.taskHigh]) ∧
    ¬ List.Sorted Coord.claimTaskOrder (Coord.get_agent_tasks "DEV" none Coord.orderStore) := by
  constructor
  · decide
  · decide

/-- Claim C7 (amended). get_agent_tasks returns exactly the Tasks whose
assignedTo equals the role, restricted to the given status when a
filter is supplied, ordered by the priority string descending under
the byte-wise TEXT collation (so URGENT before MEDIUM before LOW
before HIGH) and, within equal priority, by creation time ascending. -/
theorem get_agent_tasks_spec (agentRole : String) (statusFilter : Option String)
    (s : Coord.Store) :
    ((Coord.get_agent_tasks agentRole statusFilter s).Perm
      (s.tasks.filter (Coord.taskMatches agentRole statusFilter))) ∧
    List.Sorted Coord.taskOrder (Coord.get_agent_tasks agentRole statusFilter s) := by
  have htrans : IsTrans Coord.Task Coord.taskOrder := by
    constructor
    intro a b c hab hbc
    rcases hab with hab | ⟨hab1, hab2⟩
    · rcases hbc with hbc | ⟨hbc1, hbc2⟩
      · exact Or.inl (strLt_trans hbc hab)
      · exact Or.inl (hbc1 ▸ hab)
    · rcases hbc with hbc | ⟨hbc1, hbc2⟩
      · exact Or.inl (hab1.symm ▸ hbc)
      · exact Or.inr ⟨hab1.trans hbc1, Nat.le_trans hab2 hbc2⟩
  have htot : IsTotal Coord.Task Coord.taskOrder := by
    constructor
    intro a b
    rcases strLt_total b.priority a.priority with hlt | heq | hgt
    · exact Or.inl (Or.inl hlt)
    · rcases Nat.le_total a.createdAt b.createdAt with hle | hle
      · exact Or.inl (Or.inr ⟨heq.symm, hle⟩)
      · exact Or.inr (Or.inr ⟨heq, hle⟩)
    · exact Or.inr (Or.inl hgt)
  exact ⟨List.perm_insertionSort _ _, List.sorted_insertionSort _ _⟩

/-! Claim C9: the WebSocket close handler. -/

/-- Claim C9 counterexample. Closing the socket of the connected DEV agent
leaves the store untouched: the close handler of index.ts deletes the
registry mappings only and never writes the Agent table, so the single
Agent row keeps status ONLINE and no row is upserted to OFFLINE,
refuting that part of the claim. -/
theorem ws_close_no_offline_cex :
    ((Coord.wsCloseHandler Coord.closingConn Coord.demoRegistry Coord.closeStore).2 =
      Coord.closeStore) ∧
    (∀ a ∈ (Coord.wsCloseHandler Coord.closingConn Coord.demoRegistry Coord.closeStore).2.agents,
      a.status = "ONLINE") ∧
    (¬ ∃ a ∈ (Coord.wsCloseHandler Coord.closingConn Coord.demoRegistry
        Coord.closeStore).2.agents, a.status = "OFFLINE") := by
  refine ⟨rfl, ?_, ?_⟩ <;> decide

/-- Claim C9 (amended). When the closing socket is mapped under an
agent id whose connection id no other mapping shares, the close
handler removes that agent id from the connection registry, a
subsequent broadcast no longer reaches the closed connection, and the
store is unchanged: no Agent row is upserted to OFFLINE. -/
theorem ws_close_spec (ws : Coord.WSConn) (aid : String)
    (reg : Coord.Registry) (s : Coord.Store)
    (hfind : reg.agentConnections.find? (fun p => p.2 == ws) = some (aid, ws))
    (huniq : ∀ q ∈ reg.agentConnections, q.2.connId = ws.connId → q.1 = aid) :
    (∀ q ∈ (Coord.wsCloseHandler ws reg s).1.agentConnections, q.1 ≠ aid) ∧
    (ws.connId ∉ Coord.broadcastToAgents (Coord.wsCloseHandler ws reg s).1) ∧
    ((Coord.wsCloseHandler ws reg s).2 = s) := by
  refine ⟨?_, ?_, rfl⟩
  · intro q hq
    simp only [Coord.wsCloseHandler, Coord.wsClose, hfind] at hq
    have hq2 := (List.mem_filter.mp hq).2
    simpa using hq2
  · intro hmem
    simp only [Coord.wsCloseHandler, Coord.wsClose, hfind, Coord.broadcastToAgents] at hmem
    rcases List.mem_filterMap.mp hmem with ⟨q, hq, hqv⟩
    have hqconn : q ∈ reg.agentConnections := (List.mem_filter.mp hq).1
    have hqne : ¬ (q.1 == aid) = true := by
      have hq2 := (List.mem_filter.mp hq).2
      simpa using hq2
    have hcid : q.2.connId = ws.connId := by
      cases ho : q.2.isOpen with
      | true =>
        rw [ho] at hqv
        simpa using hqv
      | false =>
        rw [ho] at hqv
        simp at hqv
    have haid : q.1 = aid := huniq q hqconn hcid
    exact hqne (by simp [haid])

/-- Claim C9 witness: the amended close behavior on the concrete
registry holding one connected DEV agent. -/
theorem ws_close_spec_witness :
    (Coord.demoRegistry.agentConnections.find? (fun p => p.2 == Coord.closingConn) =
      some ("agent-dev-1", Coord.closingConn)) ∧
    (∀ q ∈ Coord.demoRegistry.agentConnections,
      q.2.connId = Coord.closingConn.connId → q.1 = "agent-dev-1") ∧
    ((∀ q ∈ (Coord.wsCloseHandler Coord.closingConn Coord.demoRegistry
        Coord.closeStore).1.agentConnections, q.1 ≠ "agent-dev-1") ∧
    (Coord.closingConn.connId ∉ Coord.broadcastToAgents
      (Coord.wsCloseHandler Coord.closingConn Coord.demoRegistry Coord.closeStore).1) ∧
    ((Coord.wsCloseHandler Coord.closingConn Coord.demoRegistry Coord.closeStore).2 =
      Coord.closeStore)) :=
  ⟨by decide, by decide,
   ws_close_spec Coord.closingConn "agent-dev-1" Coord.demoRegistry Coord.closeStore
     (by decide) (by decide)⟩

end Aircrew
